import Mathlib

/-!
Shallow embedding of the multi-account session lifecycle manager
(state/session React provider) of the social-app repository.

The embedding translates the session module (types, the persist-session
handler factory, the Provider callbacks `upsertAccount`,
`clearCurrentAccount`, `createAccount`, `logout`, `initSession`,
`resumeSession`, `selectAccount`, the `persisted.onUpdate` reconciliation
effect, `configureModeration` and `isSessionDeactivated`) into pure Lean
functions.  External collaborators (the `jwt-decode` library, the clock,
the protocol client network outcomes, the labeler cache) are supplied
through an explicit `Env` record, and React state updates become explicit
state passing over `SessionState`.

JavaScript truthiness of optional strings and booleans is modelled
explicitly: `undefined` and the empty string are falsy, `false` is falsy.
-/

instance exceptDecEq {ε α : Type} [DecidableEq ε] [DecidableEq α] :
    DecidableEq (Except ε α) := fun x y =>
  match x, y with
  | Except.ok a, Except.ok b =>
    if h : a = b then isTrue (by rw [h])
    else isFalse (by intro hc; injection hc; contradiction)
  | Except.error a, Except.error b =>
    if h : a = b then isTrue (by rw [h])
    else isFalse (by intro hc; injection hc; contradiction)
  | Except.ok _, Except.error _ => isFalse (fun h => Except.noConfusion h)
  | Except.error _, Except.ok _ => isFalse (fun h => Except.noConfusion h)

/-- Claims of a decoded JWT, as read by the session module: the module
only inspects the `exp` claim (seconds since epoch) and the `scope`
claim. Decoding is performed by the external `jwt-decode` library,
modelled as a function `String → Option JwtClaims` where `none` means
the library throws `InvalidTokenError`. -/
structure JwtClaims where
  exp : Option Nat
  scope : Option String
deriving Repr, DecidableEq

/-- Sentinel scope value marking a deactivated session. -/
def deactivatedScope : String := "com.atproto.deactivated"

/-- JavaScript truthiness for an optional string: `undefined` and the
empty string are falsy. -/
def jsTruthyStr : Option String → Bool
  | none => false
  | some s => !(s == "")

/-- JavaScript `x || d` for an optional string against a string default. -/
def jsOrStr (x : Option String) (d : String) : String :=
  match x with
  | none => d
  | some v => if v == "" then d else v

/-- JavaScript `x || d` where both sides are optional strings. -/
def jsOrOptStr (x : Option String) (d : Option String) : Option String :=
  match x with
  | none => d
  | some v => if v == "" then d else some v

/-- JavaScript `x || d` where both sides are optional booleans:
`false` is falsy, so only `some true` wins over the default. -/
def jsOrOptBool (x : Option Bool) (d : Option Bool) : Option Bool :=
  match x with
  | some true => some true
  | _ => d

/-- The protocol client session data (`AtpSessionData`): `did`, `handle`,
`accessJwt` and `refreshJwt` are required strings, `email` and
`emailConfirmed` are optional. -/
structure AgentSession where
  did : String
  handle : String
  email : Option String
  emailConfirmed : Option Bool
  accessJwt : String
  refreshJwt : String
deriving Repr, DecidableEq

/-- A persisted account record (`SessionAccount = persisted.PersistedAccount`). -/
structure SessionAccount where
  service : String
  did : String
  handle : String
  email : Option String
  emailConfirmed : Option Bool
  deactivated : Bool
  refreshJwt : Option String
  accessJwt : Option String
deriving Repr, DecidableEq

/-- The observable state of a `BskyAgent` protocol client instance used by
the session module: its service URL, its current session (possibly
undefined) and the per-instance labelers header set by
`configureLabelersHeader`. -/
structure Agent where
  service : String
  session : Option AgentSession
  labelersHeader : List String
deriving Repr, DecidableEq

/-- The external `BSKY_LABELER_DID` constant from the protocol library
(the default app labeler id). -/
def BSKY_LABELER_DID : String := "did:plc:bskyLabeler"

/-- Modelled from the spec: `PUBLIC_BSKY_AGENT` from the state/queries
module (not under src/) — the public, unauthenticated protocol client the
session module reverts to on sign-out. -/
def PUBLIC_BSKY_AGENT : Agent :=
  { service := "https://public.api.bsky.app", session := none, labelersHeader := [] }

/-- In-memory state owned by the session Provider: the active client, the
account roster, the two flags, and the global app-labelers configuration
set through the static `BskyAgent.configure`. -/
structure SessionState where
  agent : Agent
  accounts : List SessionAccount
  isInitialLoad : Bool
  isSwitchingAccounts : Bool
  appLabelers : List String
deriving Repr, DecidableEq

/-- Embedding of `isSessionDeactivated` (source lines 657-665): when the
access token is truthy it decodes it — the decode error of `jwt-decode`
is NOT caught here and propagates — and compares the `scope` claim with
the deactivation sentinel; a falsy token yields `false`. -/
def isSessionDeactivated (decode : String → Option JwtClaims)
    (accessJwt : Option String) : Except Unit Bool :=
  match accessJwt with
  | some jwt =>
    if jwt == "" then Except.ok false
    else
      match decode jwt with
      | none => Except.error ()
      | some sessData => Except.ok (decide (sessData.scope = some deactivatedScope))
  | none => Except.ok false

/-- Embedding of `agentToSessionAccount` (source lines 117-135): derives a
`SessionAccount` from the agent; propagates the decode error of
`isSessionDeactivated` on the session access token. -/
def agentToSessionAccount (decode : String → Option JwtClaims) (agent : Agent) :
    Except Unit (Option SessionAccount) :=
  match agent.session with
  | none => Except.ok none
  | some session =>
    match isSessionDeactivated decode (some session.accessJwt) with
    | Except.error e => Except.error e
    | Except.ok deact =>
      Except.ok (some
        { service := agent.service
          did := session.did
          handle := session.handle
          email := session.email
          emailConfirmed := session.emailConfirmed
          deactivated := deact
          refreshJwt := some session.refreshJwt
          accessJwt := some session.accessJwt })

/-- Embedding of `sessionAccountToAgentSession` (source lines 137-148). -/
def sessionAccountToAgentSession (account : SessionAccount) : AgentSession :=
  { did := account.did
    handle := account.handle
    email := account.email
    emailConfirmed := account.emailConfirmed
    accessJwt := account.accessJwt.getD ""
    refreshJwt := account.refreshJwt.getD "" }

/-- Credential lifecycle events delivered to the persist-session handler
(`AtpPersistSessionHandler`). -/
inductive SessionEvent where
  | create
  | update
  | expired
  | createFailed
  | networkError
deriving Repr, DecidableEq

/-- The refreshed account record built inside `persistSession` (source
lines 171-185): each identity field falls back to the prior account value
under JavaScript `||`, and `deactivated` is recomputed from the event
session access token (whose decode error propagates). -/
def refreshedAccountOf (decode : String → Option JwtClaims)
    (account : SessionAccount) (session : Option AgentSession) :
    Except Unit SessionAccount :=
  match isSessionDeactivated decode (session.map (fun x => x.accessJwt)) with
  | Except.error e => Except.error e
  | Except.ok deact =>
    Except.ok
      { service := account.service
        did := jsOrStr (session.map (fun x => x.did)) account.did
        handle := jsOrStr (session.map (fun x => x.handle)) account.handle
        email := jsOrOptStr (session.bind (fun x => x.email)) account.email
        emailConfirmed := jsOrOptBool (session.bind (fun x => x.emailConfirmed)) account.emailConfirmed
        deactivated := deact
        refreshJwt := session.map (fun x => x.refreshJwt)
        accessJwt := session.map (fun x => x.accessJwt) }

/-- Embedding of `createPersistSessionHandler` (source lines 150-212),
generic in the two callbacks it closes over. The returned Bool records
whether `emitSessionDropped` fired (the `expired` classification covering
the `expired` and `create-failed` events). On `network-error` the handler
only invokes the network-error callback and returns. -/
def createPersistSessionHandler (decode : String → Option JwtClaims)
    (account : SessionAccount)
    (persistSessionCallback : Bool → SessionAccount → SessionState → SessionState)
    (networkErrorCallback : SessionState → SessionState)
    (event : SessionEvent) (session : Option AgentSession) (s : SessionState) :
    Except Unit (SessionState × Bool) :=
  let expired : Bool :=
    decide (event = SessionEvent.expired) || decide (event = SessionEvent.createFailed)
  if event = SessionEvent.networkError then
    Except.ok (networkErrorCallback s, false)
  else
    match refreshedAccountOf decode account session with
    | Except.error e => Except.error e
    | Except.ok refreshedAccount =>
      Except.ok (persistSessionCallback expired refreshedAccount s, expired)

/-- Roster upsert used by `upsertAccount` (source lines 232-241): the new
record goes to the front and every prior entry with the same `did` is
filtered out. -/
def upsertList (account : SessionAccount) (accounts : List SessionAccount) :
    List SessionAccount :=
  account :: accounts.filter (fun a => a.did != account.did)

/-- Embedding of the Provider callback `upsertAccount` on the session state. -/
def upsertAccount (account : SessionAccount) (s : SessionState) : SessionState :=
  { s with accounts := upsertList account s.accounts }

/-- Embedding of `clearCurrentAccount` (source lines 243-249): reset the
active client to the public agent and reconfigure the global app labelers
to the default; the roster is untouched. -/
def clearCurrentAccount (s : SessionState) : SessionState :=
  { s with agent := PUBLIC_BSKY_AGENT, appLabelers := [BSKY_LABELER_DID] }

/-- The persist-session callback pair as installed at every call site
(`createAccount` lines 299-308, `login` lines 334-343, `initSession`
lines 381-388): upsert the refreshed account, and clear the current
account when the event was terminal. -/
def installedSessionCallbacks (expired : Bool) (refreshedAccount : SessionAccount)
    (s : SessionState) : SessionState :=
  let s1 := upsertAccount refreshedAccount s
  if expired then clearCurrentAccount s1 else s1

/-- The persist-session handler with the callbacks actually installed by
the session module: the network-error callback is `clearCurrentAccount`. -/
def installedPersistSessionHandler (decode : String → Option JwtClaims)
    (account : SessionAccount) (event : SessionEvent)
    (session : Option AgentSession) (s : SessionState) :
    Except Unit (SessionState × Bool) :=
  createPersistSessionHandler decode account installedSessionCallbacks
    clearCurrentAccount event session s

/-- Credential clearing applied per account by `logout`. -/
def clearAccountCreds (a : SessionAccount) : SessionAccount :=
  { a with accessJwt := none, refreshJwt := none }

/-- Embedding of `logout` (source lines 356-373): clear the current
account, then strip access and refresh tokens from every roster entry. -/
def logout (s : SessionState) : SessionState :=
  let s1 := clearCurrentAccount s
  { s1 with accounts := s1.accounts.map clearAccountCreds }

/-- Embedding of `removeAccount` (source lines 458-464): delete by `did`. -/
def removeAccountList (account : SessionAccount) (accounts : List SessionAccount) :
    List SessionAccount :=
  accounts.filter (fun a => a.did != account.did)

/-- Network calls issued on the protocol client, recorded so that the
no-network-call and retry-count properties can be stated. -/
inductive NetCall where
  | resolveHandle
  | resumeSession
  | createAccount
  | upsertProfile
deriving Repr, DecidableEq

/-- Bool test for a resume call, used to count resume attempts. -/
def isResumeCall : NetCall → Bool
  | NetCall.resumeSession => true
  | _ => false

/-- Number of resume attempts among the recorded network calls. -/
def resumeCallCount (calls : List NetCall) : Nat :=
  (calls.filter isResumeCall).length

/-- Outcome of one attempt of the protocol client `resumeSession` call:
success with the refreshed session data, a transient network failure, or
a terminal failure. -/
inductive ResumeOutcome where
  | success (sess : AgentSession)
  | transientFailure
  | terminalFailure
deriving Repr, DecidableEq

/-- External collaborators of the session module, supplied explicitly:
the `jwt-decode` library (`none` meaning the decode throws), the clock,
the handle-resolution result used by `configureModeration` (already
`.catch`-absorbed, so an `Option`), the local labeler cache
`readLabelers` (likewise absorbed), the per-attempt outcomes of the
protocol client resume call, the result of the protocol client
account-creation call, and whether the fire-and-forget `upsertProfile`
call would fail. -/
structure Env where
  decode : String → Option JwtClaims
  now : Nat
  resolveHandleResult : Option String
  readLabelers : String → Option (List String)
  resumeOutcomes : Nat → ResumeOutcome
  createAccountResult : Option AgentSession
  upsertProfileFails : Bool

/-- Modelled from the spec: `networkRetry(1, fn)` from the async retry
helper (not under src/) composed with the protocol client `resumeSession`
— the attempt is retried exactly once when the first attempt fails with a
transient network failure, and not retried otherwise. Returns the
resulting session (or `none` on terminal failure) together with the list
of resume attempts issued. -/
def networkRetryResume (env : Env) : Option AgentSession × List NetCall :=
  match env.resumeOutcomes 0 with
  | ResumeOutcome.success sess => (some sess, [NetCall.resumeSession])
  | ResumeOutcome.terminalFailure => (none, [NetCall.resumeSession])
  | ResumeOutcome.transientFailure =>
    match env.resumeOutcomes 1 with
    | ResumeOutcome.success sess => (some sess, [NetCall.resumeSession, NetCall.resumeSession])
    | _ => (none, [NetCall.resumeSession, NetCall.resumeSession])

/-- Modelled from the spec: `IS_TEST_USER` from the constants module (not
under src/) — classifies internal test identities; the test moderation
authority handle used by `configureModeration` is `mod-authority.test`,
so test identities are the handles under the `.test` suffix. -/
def IS_TEST_USER (handle : String) : Bool :=
  List.isSuffixOf ".test".data handle.data

/-- Result of `configureModeration`: the (possibly updated) client, the
resulting global app-labelers configuration, and the network calls
issued. -/
structure ModResult where
  agent : Agent
  appLabelers : List String
  calls : List NetCall
deriving Repr, DecidableEq

/-- Embedding of `configureModeration` (source lines 609-629): for a test
identity, resolve the test moderation authority over the network (failure
absorbed; a truthy resolved did replaces the global app labelers); for an
ordinary account, install the default app labeler and best-effort attach
the cached per-account labelers (minus the default) as the client
labelers header. -/
def configureModeration (env : Env) (agent : Agent) (account : SessionAccount)
    (appLabelers : List String) : ModResult :=
  if IS_TEST_USER account.handle then
    match env.resolveHandleResult with
    | some did =>
      if did == "" then { agent := agent, appLabelers := appLabelers, calls := [NetCall.resolveHandle] }
      else { agent := agent, appLabelers := [did], calls := [NetCall.resolveHandle] }
    | none => { agent := agent, appLabelers := appLabelers, calls := [NetCall.resolveHandle] }
  else
    match env.readLabelers account.did with
    | some labelerDids =>
      { agent := { agent with labelersHeader := labelerDids.filter (fun d => d != BSKY_LABELER_DID) }
        appLabelers := [BSKY_LABELER_DID]
        calls := [] }
    | none => { agent := agent, appLabelers := [BSKY_LABELER_DID], calls := [] }

/-- The `prevSession` object built inside `initSession` (source lines
391-395): the account data with tokens defaulted to the empty string. -/
def mkPrevSession (account : SessionAccount) : AgentSession :=
  { did := account.did
    handle := account.handle
    email := account.email
    emailConfirmed := account.emailConfirmed
    accessJwt := account.accessJwt.getD ""
    refreshJwt := account.refreshJwt.getD "" }

/-- The cached-credential reuse test of `initSession` (source lines
397-410): the access token must be truthy, decodable (the decode error is
caught and treated as not reusable), carry a truthy `exp` claim, and not
be expired against the current clock. -/
def canReusePrevSession (env : Env) (account : SessionAccount) : Bool :=
  match account.accessJwt with
  | none => false
  | some jwt =>
    if jwt == "" then false
    else
      match env.decode jwt with
      | none => false
      | some decoded =>
        match decoded.exp with
        | none => false
        | some e => if e == 0 then false else decide (env.now < e * 1000)

/-- Embedding of `initSession` (source lines 375-441). A fresh client is
built for the account service; moderation is configured optimistically;
then either the cached session is reused with no network call, or the
session is resumed over the network with a single retry on transient
failure. A resume success fires the installed persist-session handler
(which upserts the refreshed account) and activates the client; any
failure escaping the resume (terminal network failure, or the handler
decode error surfacing through it) is caught and answered by
`clearCurrentAccount`, so `initSession` itself never rejects. Returns the
final state together with the network calls issued. -/
def initSession (env : Env) (account : SessionAccount) (s : SessionState) :
    SessionState × List NetCall :=
  let agent0 : Agent := { service := account.service, session := none, labelersHeader := [] }
  let m := configureModeration env agent0 account s.appLabelers
  let s0 : SessionState := { s with appLabelers := m.appLabelers }
  if canReusePrevSession env account then
    (upsertAccount account
      { s0 with agent := { m.agent with session := some (mkPrevSession account) } },
     m.calls)
  else
    match networkRetryResume env with
    | (some newSess, rcalls) =>
      match refreshedAccountOf env.decode account (some newSess) with
      | Except.ok refreshed =>
        (upsertAccount refreshed
          { s0 with agent := { m.agent with session := some newSess } },
         m.calls ++ rcalls)
      | Except.error _ => (clearCurrentAccount s0, m.calls ++ rcalls)
    | (none, rcalls) => (clearCurrentAccount s0, m.calls ++ rcalls)

/-- Embedding of `resumeSession` (source lines 443-456): delegate to
`initSession` when an account is supplied, absorb any failure, and clear
`isInitialLoad` in the `finally` step. The result carries the promise
outcome (always a resolution, since `initSession` never rejects). -/
def resumeSession (env : Env) (account : Option SessionAccount) (s : SessionState) :
    Except Unit SessionState × List NetCall :=
  match account with
  | none => (Except.ok { s with isInitialLoad := false }, [])
  | some a =>
    let r := initSession env a s
    (Except.ok { r.1 with isInitialLoad := false }, r.2)

/-- Embedding of `selectAccount` (source lines 475-490): set
`isSwitchingAccounts`, run `initSession`, reset the flag; the catch
branch rethrows, but `initSession` never rejects, so the promise always
resolves. -/
def selectAccount (env : Env) (account : SessionAccount) (s : SessionState) :
    Except Unit SessionState × List NetCall :=
  let s1 : SessionState := { s with isSwitchingAccounts := true }
  let r := initSession env account s1
  (Except.ok { r.1 with isSwitchingAccounts := false }, r.2)

/-- Embedding of `createAccount` (source lines 251-318): run the protocol
account-creation call; fail when no session was established; compute the
deactivation flag (decode error propagating); issue the fire-and-forget
`upsertProfile` call only when not deactivated; derive the account,
configure moderation, activate the client and upsert the account. -/
def createAccount (env : Env) (service : String) (s : SessionState) :
    Except Unit SessionState × List NetCall :=
  match env.createAccountResult with
  | none => (Except.error (), [NetCall.createAccount])
  | some sess =>
    let agent0 : Agent := { service := service, session := some sess, labelersHeader := [] }
    match isSessionDeactivated env.decode (some sess.accessJwt) with
    | Except.error e => (Except.error e, [NetCall.createAccount])
    | Except.ok deactivated =>
      let profCalls : List NetCall := if deactivated then [] else [NetCall.upsertProfile]
      match agentToSessionAccount env.decode agent0 with
      | Except.error e => (Except.error e, [NetCall.createAccount] ++ profCalls)
      | Except.ok none => (Except.error (), [NetCall.createAccount] ++ profCalls)
      | Except.ok (some account) =>
        let m := configureModeration env agent0 account s.appLabelers
        (Except.ok (upsertAccount account
            { s with agent := m.agent, appLabelers := m.appLabelers }),
         [NetCall.createAccount] ++ profCalls ++ m.calls)

/-- Embedding of the `persisted.onUpdate` reconciliation effect (source
lines 502-552). `current` is the memoized `currentAccount` the callback
closes over; `pAccounts` and `pCurrent` are the freshly read persisted
snapshot. The roster is replaced first; then, when the persisted current
account exists and carries a truthy refresh token, a differing id runs
`initSession` on it and an equal id splices its session into the active
client; when the persisted current account is absent while one is held in
memory, the current account is cleared. -/
def onPersistedSessionUpdate (env : Env) (pAccounts : List SessionAccount)
    (pCurrent : Option SessionAccount) (current : Option SessionAccount)
    (s : SessionState) : SessionState × List NetCall :=
  let s0 : SessionState := { s with accounts := pAccounts }
  match pCurrent with
  | some pc =>
    if jsTruthyStr pc.refreshJwt then
      if some pc.did = current.map (fun a => a.did) then
        ({ s0 with agent := { s0.agent with session := some (sessionAccountToAgentSession pc) } }, [])
      else
        initSession env pc s0
    else (s0, [])
  | none =>
    match current with
    | some _ => (clearCurrentAccount s0, [])
    | none => (s0, [])

/-- Decode table used by concrete witnesses: one valid ordinary token,
one valid deactivated token, everything else undecodable. -/
def decodeTbl : String → Option JwtClaims := fun j =>
  if j == "validTok" then some { exp := some 9, scope := none }
  else if j == "deactTok" then some { exp := some 9, scope := some deactivatedScope }
  else none

/-- Session data for the concrete account used by witnesses. -/
def sessA : AgentSession :=
  { did := "did:plc:aaa", handle := "alice.example", email := some "a@mail.example"
    emailConfirmed := some true, accessJwt := "validTok", refreshJwt := "refreshA" }

/-- Concrete account with a valid cached access token. -/
def acctA : SessionAccount :=
  { service := "https://pds.example", did := "did:plc:aaa", handle := "alice.example"
    email := some "a@mail.example", emailConfirmed := some true, deactivated := false
    refreshJwt := some "refreshA", accessJwt := some "validTok" }

/-- The same account with its credentials absent. -/
def acctANoTok : SessionAccount := { acctA with accessJwt := none, refreshJwt := none }

/-- A second concrete account, no credentials. -/
def acctB : SessionAccount :=
  { service := "https://pds.example", did := "did:plc:bbb", handle := "bob.example"
    email := none, emailConfirmed := none, deactivated := false
    refreshJwt := none, accessJwt := none }

/-- A concrete internal test identity with a valid cached access token. -/
def acctTest : SessionAccount :=
  { acctA with did := "did:plc:ccc", handle := "carol.test" }

/-- Concrete active client bound to `acctA`. -/
def agentA : Agent :=
  { service := "https://pds.example", session := some sessA, labelersHeader := [] }

/-- Concrete state: `acctA` active, roster `[acctA, acctB]`. -/
def stateA : SessionState :=
  { agent := agentA, accounts := [acctA, acctB], isInitialLoad := false
    isSwitchingAccounts := false, appLabelers := [BSKY_LABELER_DID] }

/-- Concrete environment: tokens decode per `decodeTbl`, the clock is
before the token expiry, every resume attempt fails terminally, handle
resolution and the labeler cache yield nothing. -/
def envBase : Env :=
  { decode := decodeTbl, now := 0, resolveHandleResult := none
    readLabelers := fun _ => none
    resumeOutcomes := fun _ => ResumeOutcome.terminalFailure
    createAccountResult := none, upsertProfileFails := false }

/-- Session payload whose optional identity fields are all omitted
(empty did and handle, no email data), used to exercise the fallback. -/
def sessOmit : AgentSession :=
  { did := "", handle := "", email := none, emailConfirmed := none
    accessJwt := "validTok", refreshJwt := "refreshB" }

/-- The refreshed record the handler derives from `acctA` and `sessOmit`. -/
def rOmit : SessionAccount :=
  { service := acctA.service, did := acctA.did, handle := acctA.handle
    email := acctA.email, emailConfirmed := acctA.emailConfirmed
    deactivated := false, refreshJwt := some "refreshB", accessJwt := some "validTok" }

/-- The concrete account with a remotely refreshed refresh credential. -/
def acctARefreshed : SessionAccount := { acctA with refreshJwt := some "refreshB" }

/-- Session data whose access token carries the deactivation scope. -/
def sessDeact : AgentSession := { sessA with accessJwt := "deactTok" }

/-- Environment whose account-creation call yields the deactivated session. -/
def envC9 : Env := { envBase with createAccountResult := some sessDeact }

section SanityExamples

example :
    isSessionDeactivated (fun _ => some { exp := some 1, scope := some deactivatedScope })
      (some "tok") = Except.ok true := by decide

example : canReusePrevSession envBase acctA = true := by decide

example : (initSession envBase acctA stateA).2 = [] := by decide

example : (initSession envBase acctANoTok stateA).2 = [NetCall.resumeSession] := by decide

example : (initSession envBase acctANoTok stateA).1.agent = PUBLIC_BSKY_AGENT := by decide

example : (initSession envBase acctTest stateA).2 = [NetCall.resolveHandle] := by decide

example :
    isSessionDeactivated (fun _ => none) (some "tok") = Except.error () := by decide

example : isSessionDeactivated (fun _ => none) none = Except.ok false := by decide

example : isSessionDeactivated (fun _ => none) (some "") = Except.ok false := by decide

end SanityExamples

lemma logout_accounts (s : SessionState) :
    (logout s).accounts = s.accounts.map clearAccountCreds := rfl

/-- C3 (counterexample): on a token the decoder cannot decode, the source
`isSessionDeactivated` does not catch the decode error — it propagates —
refuting both that the function returns false on an undecodable token and
that it never throws. -/
theorem c3_counterexample :
    isSessionDeactivated (fun _ => none) (some "badTok") = Except.error () := by
  decide

/-- C3 (amended): isSessionDeactivated returns false when the token is
undefined or the empty string; when the token is a non-empty string the
decoder rejects, the decode error propagates (the function throws); when
the token decodes, the result is true exactly when the scope claim equals
the deactivation sentinel — so it never returns true otherwise. -/
theorem c3_isSessionDeactivated_spec (decode : String → Option JwtClaims)
    (t : Option String) :
    (t = none → isSessionDeactivated decode t = Except.ok false) ∧
    (t = some "" → isSessionDeactivated decode t = Except.ok false) ∧
    (∀ j, t = some j → j ≠ "" → decode j = none →
      isSessionDeactivated decode t = Except.error ()) ∧
    (∀ j c, t = some j → j ≠ "" → decode j = some c →
      (isSessionDeactivated decode t = Except.ok true ↔ c.scope = some deactivatedScope)) := by
  refine ⟨?_, ?_, ?_, ?_⟩
  · intro h; subst h; rfl
  · intro h; subst h; rfl
  · intro j h hne hd; subst h
    simp [isSessionDeactivated, hne, hd]
  · intro j c h hne hd; subst h
    simp [isSessionDeactivated, hne, hd]

/-- C3 (witness): the concrete deactivated token decodes to the sentinel
scope and isSessionDeactivated reports it. -/
theorem c3_witness :
    isSessionDeactivated decodeTbl (some "deactTok") = Except.ok true := by
  exact ((c3_isSessionDeactivated_spec decodeTbl (some "deactTok")).2.2.2
    "deactTok" { exp := some 9, scope := some deactivatedScope }
    rfl (by decide) (by decide)).mpr rfl

/-- C2 (counterexample): firing the installed persist-session handler
with the network-error event while an authenticated agent is active
resets the active client to the public agent — the active session is
dropped locally, refuting that the active client remains bound to the
same current account. -/
theorem c2_counterexample :
    Except.map (fun p => p.1.agent)
        (installedPersistSessionHandler decodeTbl acctA SessionEvent.networkError none stateA) =
      Except.ok PUBLIC_BSKY_AGENT ∧
    stateA.agent ≠ PUBLIC_BSKY_AGENT := by decide

/-- C2 (amended): on a network-error event the installed handler upserts
nothing — the roster is unchanged and no session-dropped notification is
emitted — but the notification callback installed at every call site is
clearCurrentAccount, so the active client is reset to the public
unauthenticated client instead of staying bound to the current account. -/
theorem c2_networkError_handler (decode : String → Option JwtClaims)
    (account : SessionAccount) (session : Option AgentSession) (s : SessionState) :
    installedPersistSessionHandler decode account SessionEvent.networkError session s =
      Except.ok (clearCurrentAccount s, false) ∧
    (clearCurrentAccount s).accounts = s.accounts ∧
    (clearCurrentAccount s).agent = PUBLIC_BSKY_AGENT := by
  exact ⟨rfl, rfl, rfl⟩

/-- C7: logout resets the active client to the public agent, keeps every
roster entry in place (same length, and position by position the id,
service, handle, email, email-confirmation and deactivation fields are
unchanged) and clears the access and refresh tokens of every entry. -/
theorem c7_logout (s : SessionState) :
    (logout s).agent = PUBLIC_BSKY_AGENT ∧
    (logout s).accounts.length = s.accounts.length ∧
    (∀ i : Nat, ((logout s).accounts[i]?).map (fun a => a.did) =
      (s.accounts[i]?).map (fun a => a.did)) ∧
    (∀ i : Nat, ((logout s).accounts[i]?).map (fun a => a.service) =
      (s.accounts[i]?).map (fun a => a.service)) ∧
    (∀ i : Nat, ((logout s).accounts[i]?).map (fun a => a.handle) =
      (s.accounts[i]?).map (fun a => a.handle)) ∧
    (∀ i : Nat, ((logout s).accounts[i]?).map (fun a => a.email) =
      (s.accounts[i]?).map (fun a => a.email)) ∧
    (∀ i : Nat, ((logout s).accounts[i]?).map (fun a => a.emailConfirmed) =
      (s.accounts[i]?).map (fun a => a.emailConfirmed)) ∧
    (∀ i : Nat, ((logout s).accounts[i]?).map (fun a => a.deactivated) =
      (s.accounts[i]?).map (fun a => a.deactivated)) ∧
    ((logout s).accounts.all (fun a => a.accessJwt.isNone && a.refreshJwt.isNone)) = true := by
  refine ⟨rfl, by simp [logout_accounts], ?_, ?_, ?_, ?_, ?_, ?_, ?_⟩
  all_goals
    first
    | (intro i
       rw [logout_accounts, List.getElem?_map]
       cases s.accounts[i]? <;> rfl)
    | (rw [logout_accounts]
       simp [List.all_eq_true, clearAccountCreds])

/-- C8: starting from a roster with pairwise-distinct ids, upsert
preserves id uniqueness, and upserting the same id twice with different
values collapses to the latest upsert: exactly one entry with that id
remains, holding the latest values, at the front, with every other entry
kept in its original relative order. -/
theorem c8_upsert_unique (l : List SessionAccount) (a a' : SessionAccount)
    (hnd : (l.map (fun x => x.did)).Nodup) (heq : a'.did = a.did) :
    ((upsertList a l).map (fun x => x.did)).Nodup ∧
    upsertList a' (upsertList a l) = upsertList a' l ∧
    (upsertList a' (upsertList a l)).head? = some a' ∧
    (upsertList a' (upsertList a l)).filter (fun b => b.did == a'.did) = [a'] ∧
    (upsertList a' (upsertList a l)).filter (fun b => b.did != a'.did) =
      l.filter (fun b => b.did != a'.did) := by
  have hfsub : ((l.filter (fun b => b.did != a.did)).map (fun x => x.did)).Sublist
      (l.map (fun x => x.did)) := (List.filter_sublist l).map _
  have htail : ((l.filter (fun b => b.did != a.did)).map (fun x => x.did)).Nodup :=
    List.Nodup.sublist hfsub hnd
  have hhead : a.did ∉ (l.filter (fun b => b.did != a.did)).map (fun x => x.did) := by
    intro hmem
    rcases List.mem_map.mp hmem with ⟨b, hb, hbd⟩
    rcases List.mem_filter.mp hb with ⟨_, hbne⟩
    rw [hbd] at hbne
    simp at hbne
  have hnil : (l.filter (fun b => b.did != a.did)).filter (fun b => b.did == a.did) = [] := by
    rw [List.filter_eq_nil_iff]
    intro b hb
    rcases List.mem_filter.mp hb with ⟨_, hbne⟩
    simpa using hbne
  have h2 : upsertList a' (upsertList a l) = upsertList a' l := by
    simp only [upsertList, List.filter_cons]
    rw [heq]
    simp [List.filter_filter]
  refine ⟨?_, h2, ?_, ?_, ?_⟩
  · simp only [upsertList, List.map_cons, List.nodup_cons]
    exact ⟨hhead, htail⟩
  · rw [h2]; rfl
  · rw [h2, heq]
    simp only [upsertList, List.filter_cons]
    simp [List.filter_filter, heq, bne, Bool.and_not_self]
  · rw [h2, heq]
    simp only [upsertList, List.filter_cons]
    simp [List.filter_filter, heq]

/-- C8 (witness): a double upsert of the did:plc:aaa account over the
concrete two-account roster collapses to a single front entry. -/
theorem c8_witness :
    upsertList acctA (upsertList acctANoTok [acctA, acctB]) =
      upsertList acctA [acctA, acctB] ∧
    (upsertList acctA (upsertList acctANoTok [acctA, acctB])).head? = some acctA := by
  have h := c8_upsert_unique [acctA, acctB] acctANoTok acctA (by decide) (by decide)
  exact ⟨h.2.1, h.2.2.1⟩

lemma configureModeration_ordinary (env : Env) (agent : Agent)
    (account : SessionAccount) (ls : List String)
    (ht : IS_TEST_USER account.handle = false) :
    (configureModeration env agent account ls).calls = [] ∧
    (configureModeration env agent account ls).agent.service = agent.service ∧
    (configureModeration env agent account ls).agent.session = agent.session := by
  unfold configureModeration
  rw [ht]
  cases env.readLabelers account.did <;> simp

/-- C4 (counterexample): acctTest holds a valid, unexpired cached access
token, yet initSession issues a handle-resolution network call on the
protocol client for this internal test identity, so zero network calls
does not hold for every account with a reusable credential. -/
theorem c4_counterexample :
    canReusePrevSession envBase acctTest = true ∧
    (initSession envBase acctTest stateA).2 = [NetCall.resolveHandle] := by decide

/-- C4 (amended): for every account that is not an internal test identity
and holds a present, decodable, unexpired cached access token,
initSession issues zero network calls, installs the cached credentials on
a fresh client bound to the account service, makes it active and upserts
the account; for an internal test identity the moderation configurator
additionally issues its handle-resolution call. -/
theorem c4_reuse_no_network (env : Env) (account : SessionAccount) (s : SessionState)
    (j : String) (c : JwtClaims) (e : Nat)
    (ht : IS_TEST_USER account.handle = false)
    (hj : account.accessJwt = some j) (hne : j ≠ "")
    (hd : env.decode j = some c) (he : c.exp = some e)
    (hexp : env.now < e * 1000) :
    (initSession env account s).2 = [] ∧
    (initSession env account s).1.agent.service = account.service ∧
    (initSession env account s).1.agent.session = some (mkPrevSession account) ∧
    (initSession env account s).1.accounts = upsertList account s.accounts := by
  have he0 : (e == 0) = false := by
    have hne0 : e ≠ 0 := by
      intro h0; subst h0; simp at hexp
    simpa using hne0
  have hcr : canReusePrevSession env account = true := by
    unfold canReusePrevSession
    rw [hj]
    simp [hne, hd, he, he0, hexp]
  have hmod := configureModeration_ordinary env
    { service := account.service, session := none, labelersHeader := [] }
    account s.appLabelers ht
  refine ⟨?_, ?_, ?_, ?_⟩ <;>
    simp [initSession, hcr, upsertAccount, hmod.1, hmod.2.1, hmod.2.2]

/-- C4 (witness): for the ordinary concrete account with a valid cached
token, initSession issues no network call and activates the cached
session. -/
theorem c4_witness :
    (initSession envBase acctA stateA).2 = [] ∧
    (initSession envBase acctA stateA).1.agent.session = some (mkPrevSession acctA) := by
  have h := c4_reuse_no_network envBase acctA stateA "validTok"
    { exp := some 9, scope := none } 9 (by decide) (by decide) (by decide)
    (by decide) (by decide) (by decide)
  exact ⟨h.1, h.2.2.1⟩

lemma resumeCallCount_append (x y : List NetCall) :
    resumeCallCount (x ++ y) = resumeCallCount x + resumeCallCount y := by
  simp [resumeCallCount, List.filter_append]

lemma resumeCallCount_one : resumeCallCount [NetCall.resumeSession] = 1 := rfl

lemma resumeCallCount_two :
    resumeCallCount [NetCall.resumeSession, NetCall.resumeSession] = 2 := rfl

lemma configureModeration_resumeCount (env : Env) (agent : Agent)
    (account : SessionAccount) (ls : List String) :
    resumeCallCount (configureModeration env agent account ls).calls = 0 := by
  unfold configureModeration
  cases ht : IS_TEST_USER account.handle
  · cases env.readLabelers account.did <;> simp [resumeCallCount]
  · cases env.resolveHandleResult with
    | none => simp [resumeCallCount, isResumeCall]
    | some did =>
      cases hdid : (did == "") <;> simp [hdid, resumeCallCount, isResumeCall]

/-- C6: with an absent, empty, undecodable or expired cached access
token, initSession issues exactly one resume call when the first attempt
does not fail transiently and exactly two when it does (the single
retry); and whenever the retried resume still fails, the result is a
partial sign-out: the active client is the public agent and the roster is
untouched. -/
theorem c6_resume_retry_and_fallback (env : Env) (account : SessionAccount)
    (s : SessionState)
    (h : account.accessJwt = none ∨ account.accessJwt = some "" ∨
      (∃ j, account.accessJwt = some j ∧ env.decode j = none) ∨
      (∃ j c e, account.accessJwt = some j ∧ env.decode j = some c ∧
        c.exp = some e ∧ e * 1000 ≤ env.now)) :
    resumeCallCount (initSession env account s).2 =
      (if env.resumeOutcomes 0 = ResumeOutcome.transientFailure then 2 else 1) ∧
    ((networkRetryResume env).1 = none →
      (initSession env account s).1.agent = PUBLIC_BSKY_AGENT ∧
      (initSession env account s).1.accounts = s.accounts) := by
  have hcr : canReusePrevSession env account = false := by
    unfold canReusePrevSession
    rcases h with h | h | ⟨j, hj, hd⟩ | ⟨j, c, e, hj, hd, he, hexp⟩
    · rw [h]
    · rw [h]; simp
    · rw [hj]
      cases hje : (j == "") <;> simp [hje, hd]
    · rw [hj]
      cases hje : (j == "")
      · simp [hje, hd, he]
        intro _
        exact hexp
      · simp [hje]
  have hmodc := configureModeration_resumeCount env
    { service := account.service, session := none, labelersHeader := [] }
    account s.appLabelers
  constructor
  · cases h0 : env.resumeOutcomes 0 with
    | success sess =>
      have hnr : networkRetryResume env = (some sess, [NetCall.resumeSession]) := by
        unfold networkRetryResume; rw [h0]
      cases hra : refreshedAccountOf env.decode account (some sess) <;>
        simp [initSession, hcr, hnr, hra, h0, resumeCallCount_append, hmodc,
          resumeCallCount_one]
    | transientFailure =>
      cases h1 : env.resumeOutcomes 1 with
      | success sess =>
        have hnr : networkRetryResume env =
            (some sess, [NetCall.resumeSession, NetCall.resumeSession]) := by
          unfold networkRetryResume; rw [h0, h1]
        cases hra : refreshedAccountOf env.decode account (some sess) <;>
          simp [initSession, hcr, hnr, hra, h0, resumeCallCount_append, hmodc,
            resumeCallCount_two]
      | transientFailure =>
        have hnr : networkRetryResume env =
            (none, [NetCall.resumeSession, NetCall.resumeSession]) := by
          unfold networkRetryResume; rw [h0, h1]
        simp [initSession, hcr, hnr, h0, resumeCallCount_append, hmodc,
          resumeCallCount_two]
      | terminalFailure =>
        have hnr : networkRetryResume env =
            (none, [NetCall.resumeSession, NetCall.resumeSession]) := by
          unfold networkRetryResume; rw [h0, h1]
        simp [initSession, hcr, hnr, h0, resumeCallCount_append, hmodc,
          resumeCallCount_two]
    | terminalFailure =>
      have hnr : networkRetryResume env = (none, [NetCall.resumeSession]) := by
        unfold networkRetryResume; rw [h0]
      simp [initSession, hcr, hnr, h0, resumeCallCount_append, hmodc,
        resumeCallCount_one]
  · intro hfail
    cases hnr : networkRetryResume env with
    | mk res rcalls =>
      rw [hnr] at hfail
      simp only at hfail
      subst hfail
      constructor <;> simp [initSession, hcr, hnr, clearCurrentAccount]

/-- C6 (witness): with the credential-less concrete account and a
terminal first resume failure, exactly one resume attempt is made and the
state falls back to the public client with the roster untouched. -/
theorem c6_witness :
    resumeCallCount (initSession envBase acctANoTok stateA).2 = 1 ∧
    (initSession envBase acctANoTok stateA).1.agent = PUBLIC_BSKY_AGENT ∧
    (initSession envBase acctANoTok stateA).1.accounts = stateA.accounts := by
  have h := c6_resume_retry_and_fallback envBase acctANoTok stateA (Or.inl (by decide))
  have h2 := h.2 (by decide)
  refine ⟨?_, h2.1, h2.2⟩
  have hone : (if envBase.resumeOutcomes 0 = ResumeOutcome.transientFailure
      then 2 else 1) = 1 := by decide
  rw [h.1, hone]

/-- C10: for every handler invocation with an event other than
network-error that successfully builds a refreshed account, the roster
effect is exactly an upsert of that refreshed account, whose service is
always the prior account service and whose did, handle, email and
email-confirmation fields fall back to the prior account values whenever
the event session omits them. -/
theorem c10_refresh_preserves_identity (decode : String → Option JwtClaims)
    (account : SessionAccount) (event : SessionEvent) (session : Option AgentSession)
    (s : SessionState) (r : SessionAccount)
    (hev : event ≠ SessionEvent.networkError)
    (hr : refreshedAccountOf decode account session = Except.ok r) :
    Except.map (fun p => p.1.accounts)
        (installedPersistSessionHandler decode account event session s) =
      Except.ok (upsertList r s.accounts) ∧
    r.service = account.service ∧
    (session = none → r.did = account.did ∧ r.handle = account.handle ∧
      r.email = account.email ∧ r.emailConfirmed = account.emailConfirmed) ∧
    (∀ sess, session = some sess → sess.did = "" → r.did = account.did) ∧
    (∀ sess, session = some sess → sess.handle = "" → r.handle = account.handle) ∧
    (∀ sess, session = some sess → sess.email = none → r.email = account.email) ∧
    (∀ sess, session = some sess → sess.emailConfirmed = none →
      r.emailConfirmed = account.emailConfirmed) := by
  have hr0 := hr
  unfold refreshedAccountOf at hr
  cases hd : isSessionDeactivated decode (session.map (fun x => x.accessJwt)) with
  | error e => rw [hd] at hr; exact absurd hr (by simp)
  | ok deact =>
    rw [hd] at hr
    have hrec := Except.ok.inj hr
    refine ⟨?_, ?_, ?_, ?_, ?_, ?_, ?_⟩
    · simp only [installedPersistSessionHandler, createPersistSessionHandler]
      rw [if_neg hev, hr0]
      cases hb : (decide (event = SessionEvent.expired) ||
          decide (event = SessionEvent.createFailed)) <;>
        simp [hb, installedSessionCallbacks, upsertAccount, clearCurrentAccount,
          Except.map]
    · rw [← hrec]
    · intro h; subst h; rw [← hrec]; exact ⟨rfl, rfl, rfl, rfl⟩
    · intro sess hs hf; subst hs; rw [← hrec]; simp [jsOrStr, hf]
    · intro sess hs hf; subst hs; rw [← hrec]; simp [jsOrStr, hf]
    · intro sess hs hf; subst hs; rw [← hrec]; simp [jsOrOptStr, hf]
    · intro sess hs hf; subst hs; rw [← hrec]; simp [jsOrOptBool, hf]

/-- C10 (witness): a refresh event whose session omits did, handle, email
and the email confirmation leaves all the identity fields of the concrete
account unchanged and upserts the refreshed record. -/
theorem c10_witness :
    rOmit.did = acctA.did ∧ rOmit.service = acctA.service ∧
    Except.map (fun p => p.1.accounts)
        (installedPersistSessionHandler decodeTbl acctA SessionEvent.update
          (some sessOmit) stateA) =
      Except.ok (upsertList rOmit stateA.accounts) := by
  have h := c10_refresh_preserves_identity decodeTbl acctA SessionEvent.update
    (some sessOmit) stateA rOmit (by decide) (by decide)
  exact ⟨h.2.2.2.1 sessOmit rfl rfl, h.2.1, h.1⟩

lemma initSession_terminal_state (env : Env) (account : SessionAccount)
    (s : SessionState)
    (hcr : canReusePrevSession env account = false)
    (hfail : (networkRetryResume env).1 = none) :
    (initSession env account s).1.agent = PUBLIC_BSKY_AGENT ∧
    (initSession env account s).1.accounts = s.accounts ∧
    (initSession env account s).1.isSwitchingAccounts = s.isSwitchingAccounts ∧
    (initSession env account s).1.isInitialLoad = s.isInitialLoad := by
  cases hnr : networkRetryResume env with
  | mk res rcalls =>
    rw [hnr] at hfail
    simp only at hfail
    subst hfail
    refine ⟨?_, ?_, ?_, ?_⟩ <;> simp [initSession, hcr, hnr, clearCurrentAccount]

/-- C1 (counterexample): for the concrete account with an absent cached
credential and an environment where every resume attempt fails
terminally, selectAccount resolves normally — it returns the partially
signed-out state instead of rejecting — refuting that the failure is
rethrown to the caller. -/
theorem c1_counterexample :
    (selectAccount envBase acctANoTok stateA).1 =
      Except.ok { stateA with agent := PUBLIC_BSKY_AGENT } := by decide

/-- C1 (amended): when the cached credential cannot be reused and the
resume fails terminally after its single retry, the failure is absorbed
inside initSession itself, which performs the partial sign-out; both
selectAccount (still resetting isSwitchingAccounts) and resumeSession
(still clearing isInitialLoad) resolve normally — neither rejects. -/
theorem c1_terminal_failure_absorbed (env : Env) (account : SessionAccount)
    (s : SessionState)
    (hcr : canReusePrevSession env account = false)
    (hfail : (networkRetryResume env).1 = none) :
    (∃ s1, (selectAccount env account s).1 = Except.ok s1 ∧
      s1.isSwitchingAccounts = false ∧ s1.agent = PUBLIC_BSKY_AGENT ∧
      s1.accounts = s.accounts) ∧
    (∃ s2, (resumeSession env (some account) s).1 = Except.ok s2 ∧
      s2.isInitialLoad = false ∧ s2.agent = PUBLIC_BSKY_AGENT ∧
      s2.accounts = s.accounts) := by
  have h1 := initSession_terminal_state env account
    { s with isSwitchingAccounts := true } hcr hfail
  have h2 := initSession_terminal_state env account s hcr hfail
  constructor
  · refine ⟨{ (initSession env account { s with isSwitchingAccounts := true }).1 with
        isSwitchingAccounts := false }, ?_, rfl, ?_, ?_⟩
    · simp [selectAccount]
    · exact h1.1
    · exact h1.2.1
  · refine ⟨{ (initSession env account s).1 with isInitialLoad := false }, ?_, rfl, ?_, ?_⟩
    · simp [resumeSession]
    · exact h2.1
    · exact h2.2.1

/-- C1 (witness): applying the absorbed-failure theorem at the concrete
credential-less account shows selectAccount resolving into the public
client with the roster untouched. -/
theorem c1_witness :
    Except.map (fun x => (x.agent, x.isSwitchingAccounts, x.accounts))
        (selectAccount envBase acctANoTok stateA).1 =
      Except.ok (PUBLIC_BSKY_AGENT, false, stateA.accounts) := by
  obtain ⟨⟨s1, he, hsw, hag, hac⟩, _⟩ :=
    c1_terminal_failure_absorbed envBase acctANoTok stateA (by decide) (by decide)
  rw [he]
  simp [Except.map, hag, hsw, hac]

/-- C5 (counterexample): the persisted current account acctB differs by
id from the in-memory current account acctA but carries no refresh
credential, so the reconciliation performs no action at all — no network
call, agent unchanged — whereas the initSession invocation the claim
prescribes would have issued a resume call and changed the agent. -/
theorem c5_counterexample :
    (onPersistedSessionUpdate envBase [acctB] (some acctB) (some acctA) stateA).2 = [] ∧
    (onPersistedSessionUpdate envBase [acctB] (some acctB) (some acctA) stateA).1.agent
      = stateA.agent ∧
    stateA.agent ≠ PUBLIC_BSKY_AGENT ∧
    (initSession envBase acctB { stateA with accounts := [acctB] }).2 =
      [NetCall.resumeSession] ∧
    (initSession envBase acctB { stateA with accounts := [acctB] }).1.agent =
      PUBLIC_BSKY_AGENT := by decide

/-- C5 (amended): the reconciliation precedence with the switch and
splice branches both gated on the persisted current account carrying a
truthy refresh credential: (1) present, refresh credential, different id
— initSession on it over the replaced roster; (2) present, refresh
credential, same id — credential spliced into the active client with no
network call; (3) present without refresh credential — nothing beyond
the roster replacement; (4) absent while one is held in memory — local
partial sign-out; (5) absent on both sides — nothing. -/
theorem c5_reconcile_precedence (env : Env) (pa : List SessionAccount)
    (pc current : Option SessionAccount) (s : SessionState) :
    (∀ c, pc = some c → jsTruthyStr c.refreshJwt = true →
      some c.did ≠ current.map (fun a => a.did) →
      onPersistedSessionUpdate env pa pc current s =
        initSession env c { s with accounts := pa }) ∧
    (∀ c, pc = some c → jsTruthyStr c.refreshJwt = true →
      some c.did = current.map (fun a => a.did) →
      onPersistedSessionUpdate env pa pc current s =
        ({ s with
            accounts := pa
            agent := { s.agent with session := some (sessionAccountToAgentSession c) } },
          [])) ∧
    (∀ c, pc = some c → jsTruthyStr c.refreshJwt = false →
      onPersistedSessionUpdate env pa pc current s = ({ s with accounts := pa }, [])) ∧
    (pc = none → current.isSome = true →
      onPersistedSessionUpdate env pa pc current s =
        (clearCurrentAccount { s with accounts := pa }, [])) ∧
    (pc = none → current = none →
      onPersistedSessionUpdate env pa pc current s = ({ s with accounts := pa }, [])) := by
  refine ⟨?_, ?_, ?_, ?_, ?_⟩
  · intro c hpc ht hne
    subst hpc
    simp [onPersistedSessionUpdate, ht, hne]
  · intro c hpc ht hEq
    subst hpc
    simp [onPersistedSessionUpdate, ht, hEq]
  · intro c hpc ht
    subst hpc
    simp [onPersistedSessionUpdate, ht]
  · intro hpc hcur
    subst hpc
    cases current with
    | none => simp at hcur
    | some cu => simp [onPersistedSessionUpdate]
  · intro hpc hcur
    subst hpc
    subst hcur
    simp [onPersistedSessionUpdate]

/-- C5 (witness): a persisted refresh of the current account (same id,
fresh refresh credential) splices the credential into the active client
without any network call. -/
theorem c5_witness :
    onPersistedSessionUpdate envBase [acctARefreshed] (some acctARefreshed)
        (some acctA) stateA =
      ({ stateA with
          accounts := [acctARefreshed]
          agent := { agentA with
            session := some (sessionAccountToAgentSession acctARefreshed) } }, []) := by
  have h := (c5_reconcile_precedence envBase [acctARefreshed] (some acctARefreshed)
    (some acctA) stateA).2.1 acctARefreshed rfl (by decide) (by decide)
  exact h

lemma configureModeration_no_upsertProfile (env : Env) (agent : Agent)
    (account : SessionAccount) (ls : List String) :
    NetCall.upsertProfile ∉ (configureModeration env agent account ls).calls := by
  unfold configureModeration
  cases ht : IS_TEST_USER account.handle
  · cases env.readLabelers account.did <;> simp
  · cases env.resolveHandleResult with
    | none => simp
    | some did => cases hdid : (did == "") <;> simp [hdid]

/-- C9: when the account-creation call succeeds, the fire-and-forget
profile-initialization call is issued exactly when the new access token
does not carry the deactivation scope, and the outcome of that call has
no influence on the result of createAccount. -/
theorem c9_createAccount_profile_gate (env : Env) (service : String)
    (s : SessionState) (sess : AgentSession)
    (hc : env.createAccountResult = some sess) :
    (isSessionDeactivated env.decode (some sess.accessJwt) = Except.ok true →
      NetCall.upsertProfile ∉ (createAccount env service s).2) ∧
    (isSessionDeactivated env.decode (some sess.accessJwt) = Except.ok false →
      NetCall.upsertProfile ∈ (createAccount env service s).2) ∧
    (∀ b, createAccount { env with upsertProfileFails := b } service s =
      createAccount env service s) := by
  refine ⟨?_, ?_, ?_⟩
  · intro hd
    simp only [createAccount, hc, agentToSessionAccount, hd]
    simp [configureModeration_no_upsertProfile]
  · intro hd
    simp only [createAccount, hc, agentToSessionAccount, hd]
    simp
  · intro b
    rfl

/-- C9 (witness): with the concrete deactivated creation result, the
profile-initialization call is not issued. -/
theorem c9_witness :
    NetCall.upsertProfile ∉ (createAccount envC9 "https://pds.example" stateA).2 := by
  exact (c9_createAccount_profile_gate envC9 "https://pds.example" stateA sessDeact
    (by decide)).1 (by decide)
